import Mathlib

/-!
Verification of the bulk-mailer template-rendering and sending pipeline.

This file gives a shallow embedding of the core of the repository:

* `src/bulk_mailer/email.py` — the `EMailGenerator` class: front-matter
  splitting (`_separate_content_and_metadata`) and message assembly
  (`generate`);
* `src/bulk_mailer/bulk_mailer.py` — the `BulkMailer` class: CSV context
  creation (`_create_context`), the send loop (`send`) and the transport
  step (`_send_mail`).

External collaborators (jinja2, mistune, frontmatter, html2text, the
envelope library) are modelled as parameters bundled in `ExternalLibs`;
theorems quantify over them.  Python dicts with string keys/values are
modelled as association lists with update-in-place semantics.  Python
exceptions are modelled with `Except PyErr`.
-/

/-- A Python dict with string keys and string values, as an association
list.  Lookup returns the first binding of a key; `ctx_set` models
`d[k] = v` (replace the existing binding in place, else append). -/
abbrev Ctx := List (String × String)

/-- Dict lookup `d.get(k)`: the first binding of `k`, if any. -/
def ctx_get : Ctx → String → Option String
  | [], _ => none
  | (k', v) :: rest, k => if k' = k then some v else ctx_get rest k

/-- Dict update `d[k] = v`: replace the first binding of `k`, else append. -/
def ctx_set : Ctx → String → String → Ctx
  | [], k, v => [(k, v)]
  | (k', v') :: rest, k, v =>
    if k' = k then (k, v) :: rest else (k', v') :: ctx_set rest k v

/-- Modelled from the spec: `merge_dicts` lives in `bulk_mailer/utils.py`,
which is not part of the sources; per spec §4.2 the call
`merge_dicts(metadata, context)` produces "the metadata merged over the
base context, with metadata keys taking precedence on conflict", so the
first argument wins on conflicting keys. -/
def merge_dicts (m c : Ctx) : Ctx :=
  m ++ c.filter (fun kv => (ctx_get m kv.1).isNone)

/-- Python exceptions raised by the embedded code. -/
inductive PyErr
  /-- jinja2.UndefinedError: a template references an absent context key. -/
  | undefinedVariable (msg : String)
  /-- jinja2.TemplateError: malformed template. -/
  | templateError (msg : String)
  /-- NameError: an unresolvable bare name, or the CSV header/recipient
  column errors raised in `_create_context`. -/
  | nameError (msg : String)
  /-- UnboundLocalError: a local variable referenced before assignment. -/
  | unboundLocal (msg : String)
  /-- AttributeError: attribute access on an object that lacks it. -/
  | attributeError (msg : String)
  /-- Exception("Missing sender") raised at `email.py:101`. -/
  | missingSender
  /-- IndexError: list index out of range. -/
  | indexError
  deriving Repr, DecidableEq

/-- External library collaborators used by `EMailGenerator`, kept abstract:
theorems quantify over them.  All front-matter metadata values are modelled
as strings (the `isinstance(metadata[key], str)` guard at `email.py:114` is
then always true). -/
structure ExternalLibs where
  /-- frontmatter.parse: split a document into (metadata, content). -/
  fmParse : String → Ctx × String
  /-- JinjaRenderer.render (strict undefined): render a template string
  against a context; may raise. -/
  jinjaRender : String → Ctx → Except PyErr String
  /-- MarkdownRenderer.render: mistune with escape=False, hard_wrap=True. -/
  markdownRender : String → String
  /-- html2text.HTML2Text with ignore_images = True: derive plaintext
  from HTML. -/
  html2text : String → String

/-- The assembled message, as produced by a successful
`EMailGenerator.generate`: the fields set on the returned Envelope object. -/
structure Envelope where
  /-- Address passed to `envelope.from_`. -/
  fromAddr : String
  /-- Addresses held by the envelope after `.to(...)`. -/
  recipients : List String
  /-- Subject passed to `envelope.subject`. -/
  subjectLine : String
  /-- HTML alternative set at `email.py:80`, if that line ran. -/
  htmlPart : Option String
  /-- Plain alternative set at `email.py:96`. -/
  plainPart : String
  deriving Repr, DecidableEq

/-- Class attribute `EMailGenerator.DEFAULTHTML_TEMPLATE` (email.py:21).
Note that the only mention of it, at `email.py:74`, spells it without the
`cls.` prefix, so the attribute is in fact unreachable (see
`markdown_stage`). -/
def DEFAULTHTML_TEMPLATE : String :=
  "<html dir=\"ltr\"><head></head><body style=\"text-align:left; direction:ltr;\">\x7b\x7b content \x7d\x7d</body></html>"

/-- The loop at `email.py:113-115`: render every metadata value as a Jinja
template against the base context, in order, first failure propagating. -/
def render_metadata (L : ExternalLibs) : Ctx → Ctx → Except PyErr Ctx
  | [], _ => .ok []
  | (k, v) :: rest, context => do
    let v' ← L.jinjaRender v context
    let rest' ← render_metadata L rest context
    .ok ((k, v') :: rest')

/-- Lines 116-117 of `email.py`: when the metadata defines `from` but not
`sender`, copy `from` into `sender`. -/
def alias_sender (metadata : Ctx) : Ctx :=
  match ctx_get metadata "from", ctx_get metadata "sender" with
  | some f, none => ctx_set metadata "sender" f
  | _, _ => metadata

/-- EMailGenerator._separate_content_and_metadata (email.py:105-120).
Returns `("", context)` for an empty template; otherwise parses front
matter, renders the metadata values against `context`, aliases `sender`
from `from` when only the latter is present, and merges the metadata over
the context. -/
def separate_content_and_metadata (L : ExternalLibs) (template : String)
    (context : Ctx) : Except PyErr (String × Ctx) :=
  if template = "" then .ok ("", context)
  else do
    let (metadata, content) := L.fmParse template
    let metadata ← render_metadata L metadata context
    .ok (content, merge_dicts (alias_sender metadata) context)

/-- Lines 69-74 of `email.py` (the markdown stage of `generate`): split and
render the markdown template, convert it to HTML into the `content` context
variable, then fall back to the default HTML template when none was given.
Returns the extended context and the (possibly replaced) html template.

The fallback line 74 reads `html_template = html_template or
DEFAULTHTML_TEMPLATE` with a bare name: inside the classmethod the class
attribute is only reachable as `cls.DEFAULTHTML_TEMPLATE`, and no local,
enclosing, module-global or builtin binding of that name exists, so when
`html_template` is falsy the line raises
`NameError: name DEFAULTHTML_TEMPLATE is not defined`.  (When
`html_template` is truthy the `or` short-circuits and the bare name is
never evaluated.) -/
def markdown_stage (L : ExternalLibs) (markdown_template html_template : String)
    (context : Ctx) : Except PyErr (Ctx × String) :=
  if markdown_template = "" then .ok (context, html_template)
  else do
    let (markdown_content, extended_context) ←
      separate_content_and_metadata L markdown_template context
    let markdown_content ← L.jinjaRender markdown_content extended_context
    let extended_context :=
      ctx_set extended_context "content" (L.markdownRender markdown_content)
    if html_template = "" then
      .error (.nameError "name DEFAULTHTML_TEMPLATE is not defined")
    else
      .ok (extended_context, html_template)

/-- Lines 77-80 of `email.py` (the html stage of `generate`): when an html
template is present, split it against the current extended context, render
it, and record the rendered html (`html_content`, also set on the envelope
as the html alternative).  Returns the extended context and
`some html_content` when the stage ran, `none` when the local
`html_content` stays unbound. -/
def html_stage (L : ExternalLibs) (html_template : String) (extended_context : Ctx) :
    Except PyErr (Ctx × Option String) :=
  if html_template = "" then .ok (extended_context, none)
  else do
    let (html_content, extended_context) ←
      separate_content_and_metadata L html_template extended_context
    let html_content ← L.jinjaRender html_content extended_context
    .ok (extended_context, some html_content)

/-- Lines 86-94 of `email.py` (the plaintext stage of `generate`): an
explicitly supplied plaintext template is split against the ORIGINAL
context (not the extended one) and rendered; otherwise the plaintext is
derived from the local `html_content` with html2text — which raises
`UnboundLocalError` when neither a markdown nor an html stage ever bound
`html_content`.  Returns the extended context after the stage and the
plaintext content. -/
def plaintext_stage (L : ExternalLibs) (plaintext_template : String)
    (context extended_context : Ctx) (html_content : Option String) :
    Except PyErr (Ctx × String) :=
  if plaintext_template = "" then
    match html_content with
    | none => .error (.unboundLocal "html_content referenced before assignment")
    | some hc => .ok (extended_context, L.html2text hc)
  else do
    let (plaintext_content, extended_context) ←
      separate_content_and_metadata L plaintext_template context
    let plaintext_content ← L.jinjaRender plaintext_content extended_context
    .ok (extended_context, plaintext_content)

/-- Python truthiness filter on an optional string: `None` and `""` are
falsy. -/
def py_truthy : Option String → Option String
  | some s => if s = "" then none else some s
  | none => none

/-- Python `x or y` on optional strings. -/
def py_or (x y : Option String) : Option String :=
  match py_truthy x with
  | some s => some s
  | none => y

/-- EMailGenerator.generate (email.py:64-103).  The three stages run in
source order; `sender`/`recipient`/`subject` are captured from the context
as extended after the html stage (lines 82-84), re-resolved with `or`
against the context as extended after the plaintext stage (lines 97-99);
a falsy final sender raises (line 100-101).  The final chain
`envelope.from_(sender).to(recipient).subject(subject)` (line 102) models
the envelope library convention, attested at `bulk_mailer.py:264`, that a
call with argument `None` is a getter: `envelope.to(None)` returns the
recipient list, so the chained `.subject` call raises AttributeError. -/
def generate (L : ExternalLibs)
    (plaintext_template markdown_template html_template : String)
    (context : Ctx) : Except PyErr Envelope := do
  let (extended₁, html_template') ←
    markdown_stage L markdown_template html_template context
  let (extended₂, html_content) ← html_stage L html_template' extended₁
  let sender := ctx_get extended₂ "sender"
  let recipient := ctx_get extended₂ "recipient"
  let subject := (ctx_get extended₂ "subject").getD ""
  let (extended₃, plaintext_content) ←
    plaintext_stage L plaintext_template context extended₂ html_content
  let sender := py_or sender (ctx_get extended₃ "sender")
  let recipient := py_or recipient (ctx_get extended₃ "recipient")
  let subject := if subject = "" then (ctx_get extended₃ "subject").getD "" else subject
  match py_truthy sender with
  | none => .error .missingSender
  | some s =>
    match recipient with
    | none => .error (.attributeError "list object has no attribute subject")
    | some r =>
      .ok { fromAddr := s, recipients := [r], subjectLine := subject,
            htmlPart := html_content, plainPart := plaintext_content }

/-- Character class `[0-9a-zA-Z_]` of the regex at `bulk_mailer.py:227`. -/
def isValidIdentChar (c : Char) : Bool :=
  (48 ≤ c.toNat && c.toNat ≤ 57) || (97 ≤ c.toNat && c.toNat ≤ 122) ||
    (65 ≤ c.toNat && c.toNat ≤ 90) || c.toNat = 95

/-- Character class `[a-zA-Z_]` used by the leading-strip regex at
`bulk_mailer.py:228`. -/
def isLeadChar (c : Char) : Bool :=
  (97 ≤ c.toNat && c.toNat ≤ 122) || (65 ≤ c.toNat && c.toNat ≤ 90) || c.toNat = 95

/-- One substitution step of `re.sub('[^0-9a-zA-Z_]', '_', hr)`. -/
def replaceInvalid (c : Char) : Char :=
  if isValidIdentChar c then c else '_'

/-- Header-cell normalization, `bulk_mailer.py:225-228`: `hr.lower()`, then
`re.sub('[^0-9a-zA-Z_]', '_', hr)`, then `re.sub('^[^a-zA-Z_]+', '', hr)`.
Lowercasing is modelled per character with `Char.toLower` (the ASCII
mapping); outside ASCII, Python lowercasing can only yield characters that
the following substitution replaces by an underscore anyway. -/
def normalize_header (s : String) : String :=
  String.mk
    (((s.data.map Char.toLower).map replaceInvalid).dropWhile
      (fun c => !isLeadChar c))

/-- Header-row loop of `_create_context` (`bulk_mailer.py:223-234`):
normalize each cell in order; raise NameError on the first cell whose
normalization is empty. -/
def build_header : List String → Except PyErr (List String)
  | [] => .ok []
  | hr :: rest =>
    let h := normalize_header hr
    if h = "" then
      .error (.nameError "CSV file is missing a proper header")
    else do
      let rest' ← build_header rest
      .ok (h :: rest')

/-- Recipient-column detection (`bulk_mailer.py:236-241`): the first of
`mail`, `e_mail`, `email`, `to` — in that priority order — that occurs in
the header determines the column, via `header.index`; NameError when none
occurs. -/
def find_recipient_column (header : List String) : Except PyErr Nat :=
  match ["mail", "e_mail", "email", "to"].find? (fun v => header.contains v) with
  | some v => .ok (header.indexOf v)
  | none => .error (.nameError "CSV file is missing an email column")

/-- Dict comprehension `{header[i]: val for i, val in enumerate(csv_row)}`
(`bulk_mailer.py:245`): iterate the row, indexing the header in lockstep;
a row longer than the header raises IndexError; duplicate header names
keep the last value. -/
def build_row_dict (acc : Ctx) : List String → List String → Except PyErr Ctx
  | _, [] => .ok acc
  | [], _ :: _ => .error .indexError
  | h :: hs, v :: vs => build_row_dict (ctx_set acc h v) hs vs

/-- Lines 246-248 of `bulk_mailer.py`: `data["from"]` and `data["sender"]`
are both set to the caller-level sender when one is configured. -/
def apply_sender_default (sender_default : Option String) (data : Ctx) : Ctx :=
  match sender_default with
  | some s => ctx_set (ctx_set data "from" s) "sender" s
  | none => data

/-- Lines 249-250 of `bulk_mailer.py`: `data["subject"] = str(self._subject)`
when a caller-level subject is set. -/
def apply_subject_default (subject_default : Option String) (data : Ctx) : Ctx :=
  match subject_default with
  | some s => ctx_set data "subject" s
  | none => data

/-- Data-row loop body of `_create_context` (`bulk_mailer.py:244-254`):
build the dict from the row, overlay the caller-level `from`/`sender` and
`subject` defaults when set, then copy the recipient cell — raising
IndexError when `csv_row[recipient_email_column]` is out of range — into
`recipient` and `to`. -/
def row_to_context (header : List String) (sender_default subject_default : Option String)
    (recipient_email_column : Nat) (csv_row : List String) : Except PyErr Ctx := do
  let data ← build_row_dict [] header csv_row
  let data := apply_sender_default sender_default data
  let data := apply_subject_default subject_default data
  match csv_row[recipient_email_column]? with
  | none => .error .indexError
  | some rv => .ok (ctx_set (ctx_set data "recipient" rv) "to" rv)

/-- Data-row loop of `_create_context` (`bulk_mailer.py:244-254`): apply
the row translation to each data row in order, collecting the records;
the first exception aborts the whole run. -/
def each_row (f : List String → Except PyErr Ctx) :
    List (List String) → Except PyErr (List Ctx)
  | [] => .ok []
  | r :: rs => do
    let c ← f r
    let cs ← each_row f rs
    .ok (c :: cs)

/-- Processing of one CSV source inside `_create_context`
(`bulk_mailer.py:212-257`), over the already-parsed rows of the file:
skip `skip_rows` rows, take the next row as header (exhaustion during
skipping or at the header raises StopIteration, which line 256 silently
swallows, yielding no records), then turn each remaining row into a
context record, in order, first exception aborting. -/
def create_context_source (sender_default subject_default : Option String)
    (skip_rows : Nat) (rows : List (List String)) : Except PyErr (List Ctx) :=
  match rows.drop skip_rows with
  | [] => .ok []
  | header_row :: data_rows => do
    let header ← build_header header_row
    let recipient_email_column ← find_recipient_column header
    each_row (row_to_context header sender_default subject_default recipient_email_column)
      data_rows

/-- BulkMailer._create_context (`bulk_mailer.py:207-259`): concatenate the
records of every configured CSV source in order.  Each source is a pair of
its skip-row count and its parsed rows. -/
def create_context (sender_default subject_default : Option String) :
    List (Nat × List (List String)) → Except PyErr (List Ctx)
  | [] => .ok []
  | src :: rest => do
    let group ← create_context_source sender_default subject_default src.1 src.2
    let groups ← create_context sender_default subject_default rest
    .ok (group ++ groups)

/-- Configuration fields of BulkMailer consulted by `send`/`_send_mail`.
An unconfigured test-recipient set (`self._test_email_set = None`) and an
empty one are both falsy in Python and are modelled as `[]`. -/
structure MailerConfig where
  dryRun : Bool
  gpgSign : Bool
  gpgEncrypt : Bool
  testEmailSet : List String
  testCount : Nat
  deriving Repr, DecidableEq

/-- Transport-collaborator invocations performed by `_send_mail`. -/
inductive TransportAction
  | configureSmtp
  | signMessage
  | encryptMessage
  | networkSend
  deriving Repr, DecidableEq

/-- BulkMailer._send_mail (`bulk_mailer.py:261-295`), as the list of
transport-collaborator invocations it performs (logging aside): nothing in
dry-run mode, otherwise SMTP configuration, optional signing, optional
encryption, and the network send. -/
def send_mail (cfg : MailerConfig) (_envelope : Envelope) : List TransportAction :=
  if cfg.dryRun then []
  else
    [TransportAction.configureSmtp]
      ++ (if cfg.gpgSign then [TransportAction.signMessage] else [])
      ++ (if cfg.gpgEncrypt then [TransportAction.encryptMessage] else [])
      ++ [TransportAction.networkSend]

/-- One record of the send loop trace: the enumeration index of the
context, the envelope handed to `_send_mail` (after any test-recipient
override), and the transport actions performed for it. -/
structure SentMail where
  index : Nat
  envelope : Envelope
  transport : List TransportAction
  deriving Repr, DecidableEq

/-- Loop body of BulkMailer.send (`bulk_mailer.py:186-199`) from enumeration
index `i`: generate the envelope for each context (failures abort the
whole run); when a test-recipient set is configured, the first
`testCount` records have their recipients replaced by the test set
(`envelope.recipients(clear=True).to(...)`) and any later record makes the
loop return outright, before `_send_mail`. -/
def send_from (cfg : MailerConfig) (gen : Ctx → Except PyErr Envelope) :
    Nat → List Ctx → Except PyErr (List SentMail)
  | _, [] => .ok []
  | i, context :: rest => do
    let envelope ← gen context
    if cfg.testEmailSet ≠ [] then
      if i < cfg.testCount then
        let envelope := { envelope with recipients := cfg.testEmailSet }
        let tail ← send_from cfg gen (i + 1) rest
        .ok (⟨i, envelope, send_mail cfg envelope⟩ :: tail)
      else
        .ok []
    else do
      let tail ← send_from cfg gen (i + 1) rest
      .ok (⟨i, envelope, send_mail cfg envelope⟩ :: tail)

/-- BulkMailer.send (`bulk_mailer.py:183-199`) over an already-created
context list, abstracting `EMailGenerator.generate` applied to the three
configured templates into `gen`. -/
def send (cfg : MailerConfig) (gen : Ctx → Except PyErr Envelope)
    (contexts : List Ctx) : Except PyErr (List SentMail) :=
  send_from cfg gen 0 contexts

/-- Concrete instantiation of the external collaborators used by the
witnesses: front matter that never yields metadata, a renderer that
returns its input unchanged, and identity markdown/html2text conversion. -/
def idLibs : ExternalLibs where
  fmParse := fun s => ([], s)
  jinjaRender := fun s _ => .ok s
  markdownRender := fun s => s
  html2text := fun s => s

/-- Concrete instantiation of the external collaborators whose front
matter always yields the single metadata entry `from: a@b.com`, used by
witnesses that exercise the metadata paths. -/
def fmLibs : ExternalLibs where
  fmParse := fun s => ([("from", "a@b.com")], s)
  jinjaRender := fun s _ => .ok s
  markdownRender := fun s => s
  html2text := fun s => s

/-- Concrete two-field context record used by witnesses. -/
def ctxW : Ctx := [("sender", "s@x"), ("recipient", "r@x")]

/-- Characters that can occur in the output of `normalize_header`:
the class `[0-9a-z_]` (valid identifier characters with no uppercase). -/
def goodChar (c : Char) : Bool :=
  isValidIdentChar c && !(65 ≤ c.toNat && c.toNat ≤ 90)

theorem ctx_get_set_self (c : Ctx) (k v : String) :
    ctx_get (ctx_set c k v) k = some v := by
  induction c with
  | nil => simp [ctx_set, ctx_get]
  | cons kv rest ih =>
    obtain ⟨k1, v1⟩ := kv
    by_cases h : k1 = k
    · simp [ctx_set, h, ctx_get]
    · simp [ctx_set, h, ctx_get, ih]

theorem ctx_get_set_ne (c : Ctx) (k v k' : String) (h : k ≠ k') :
    ctx_get (ctx_set c k v) k' = ctx_get c k' := by
  induction c with
  | nil => simp [ctx_set, ctx_get, h]
  | cons kv rest ih =>
    obtain ⟨k1, v1⟩ := kv
    by_cases hk : k1 = k
    · subst hk
      simp [ctx_set, ctx_get, h]
    · simp only [ctx_set, if_neg hk, ctx_get]
      by_cases hk' : k1 = k'
      · simp [hk']
      · simp [hk', ih]

theorem ctx_get_append (a b : Ctx) (k : String) :
    ctx_get (a ++ b) k = (ctx_get a k).or (ctx_get b k) := by
  induction a with
  | nil => simp [ctx_get]
  | cons kv rest ih =>
    obtain ⟨k1, v1⟩ := kv
    by_cases h : k1 = k
    · simp [ctx_get, h]
    · simpa [ctx_get, h] using ih

theorem ctx_get_filter_keep (m c : Ctx) (k : String) (h : ctx_get m k = none) :
    ctx_get (c.filter (fun kv => (ctx_get m kv.1).isNone)) k = ctx_get c k := by
  induction c with
  | nil => rfl
  | cons kv rest ih =>
    obtain ⟨k1, v1⟩ := kv
    rw [List.filter_cons]
    by_cases hk : k1 = k
    · subst hk
      simp [h, ctx_get]
    · by_cases hkeep : (ctx_get m k1).isNone = true
      · simp only [hkeep, if_true, ctx_get, hk, if_false]
        simpa [ctx_get, hk] using ih
      · simp only [hkeep, if_false]
        simpa [ctx_get, hk] using ih

theorem merge_dicts_get (m c : Ctx) (k : String) :
    ctx_get (merge_dicts m c) k = (ctx_get m k).or (ctx_get c k) := by
  unfold merge_dicts
  rw [ctx_get_append]
  cases h : ctx_get m k with
  | some v => rfl
  | none => rw [ctx_get_filter_keep m c k h]

theorem toLower_of_not_upper (c : Char) (h : ¬(65 ≤ c.toNat ∧ c.toNat ≤ 90)) :
    Char.toLower c = c := by
  unfold Char.toLower
  simp only [ge_iff_le]
  rw [if_neg h]

theorem toLower_of_upper (c : Char) (h : 65 ≤ c.toNat ∧ c.toNat ≤ 90) :
    Char.toLower c = Char.ofNat (c.toNat + 32) := by
  unfold Char.toLower
  simp only [ge_iff_le]
  rw [if_pos h]

theorem good_ofNat_lower (n : Nat) (h1 : 97 ≤ n) (h2 : n ≤ 122) :
    goodChar (Char.ofNat n) = true := by
  interval_cases n <;> decide

theorem replaceInvalid_of_valid (c : Char) (h : isValidIdentChar c = true) :
    replaceInvalid c = c := by
  simp [replaceInvalid, h]

theorem goodChar_valid (c : Char) (h : goodChar c = true) :
    isValidIdentChar c = true := by
  simp only [goodChar, Bool.and_eq_true] at h
  exact h.1

theorem goodChar_not_upper (c : Char) (h : goodChar c = true) :
    ¬(65 ≤ c.toNat ∧ c.toNat ≤ 90) := by
  simp only [goodChar, Bool.and_eq_true, Bool.not_eq_true'] at h
  intro hc
  have := h.2
  simp only [Bool.and_eq_false_iff, decide_eq_false_iff_not, not_le] at this
  omega

theorem goodChar_norm (c : Char) :
    goodChar (replaceInvalid (Char.toLower c)) = true := by
  by_cases h : 65 ≤ c.toNat ∧ c.toNat ≤ 90
  · rw [toLower_of_upper c h]
    have hg := good_ofNat_lower (c.toNat + 32) (by omega) (by omega)
    rw [replaceInvalid_of_valid _ (goodChar_valid _ hg)]
    exact hg
  · rw [toLower_of_not_upper c h]
    by_cases hv : isValidIdentChar c = true
    · rw [replaceInvalid_of_valid c hv]
      simp only [goodChar, hv, Bool.true_and, Bool.not_eq_true', Bool.and_eq_false_iff,
        decide_eq_false_iff_not, not_le]
      omega
    · have : replaceInvalid c = '_' := by simp [replaceInvalid, hv]
      rw [this]
      decide

theorem goodChar_fixed (c : Char) (h : goodChar c = true) :
    replaceInvalid (Char.toLower c) = c := by
  rw [toLower_of_not_upper c (goodChar_not_upper c h)]
  exact replaceInvalid_of_valid c (goodChar_valid c h)

theorem dropWhile_self (p : Char → Bool) (l : List Char) :
    List.dropWhile p (List.dropWhile p l) = List.dropWhile p l := by
  induction l with
  | nil => rfl
  | cons a l ih =>
    rw [List.dropWhile_cons]
    by_cases h : p a = true
    · rw [if_pos h]
      exact ih
    · rw [if_neg h, List.dropWhile_cons, if_neg h]

/-- Claim C9: header normalization (lowercasing, replacing characters
outside `[0-9a-zA-Z_]` with an underscore, then stripping leading
characters that are not letters or underscore) is idempotent — applying
the normalization to an already-normalized string yields the same
string. -/
theorem claim_C9_normalize_idempotent (s : String) :
    normalize_header (normalize_header s) = normalize_header s := by
  unfold normalize_header
  have hgood : ∀ c ∈ (((String.mk
      (((s.data.map Char.toLower).map replaceInvalid).dropWhile
        (fun c => !isLeadChar c))).data)), goodChar c = true := by
    intro c hc
    have hc' := (List.dropWhile_sublist _).subset hc
    obtain ⟨b, hb, rfl⟩ := List.mem_map.mp hc'
    obtain ⟨a, _, rfl⟩ := List.mem_map.mp hb
    exact goodChar_norm a
  have hmaps : (((String.mk
      (((s.data.map Char.toLower).map replaceInvalid).dropWhile
        (fun c => !isLeadChar c))).data).map Char.toLower).map replaceInvalid =
      ((String.mk
      (((s.data.map Char.toLower).map replaceInvalid).dropWhile
        (fun c => !isLeadChar c))).data) := by
    rw [List.map_map]
    have h2 : ∀ a ∈ ((String.mk
        (((s.data.map Char.toLower).map replaceInvalid).dropWhile
          (fun c => !isLeadChar c))).data),
        (replaceInvalid ∘ Char.toLower) a = id a :=
      fun a ha => goodChar_fixed a (hgood a ha)
    rw [List.map_congr_left h2, List.map_id]
  rw [hmaps]
  show String.mk (List.dropWhile _ (List.dropWhile _ _)) = _
  rw [dropWhile_self]

theorem ctx_get_alias_of_ne (md : Ctx) (k : String) (hk : k ≠ "sender") :
    ctx_get (alias_sender md) k = ctx_get md k := by
  unfold alias_sender
  cases hf : ctx_get md "from" with
  | none => cases ctx_get md "sender" <;> rfl
  | some f =>
    cases hs : ctx_get md "sender" with
    | some v => rfl
    | none => exact ctx_get_set_ne md "sender" f k (fun h => hk h.symm)

theorem ctx_get_alias_sender (md : Ctx) :
    ctx_get (alias_sender md) "sender" =
      (ctx_get md "sender").or (ctx_get md "from") := by
  unfold alias_sender
  cases hf : ctx_get md "from" with
  | none => cases hs : ctx_get md "sender" <;> simp [hs]
  | some f =>
    cases hs : ctx_get md "sender" with
    | some v => simp [hs]
    | none => simp [hs, ctx_get_set_self]

theorem separate_eq (L : ExternalLibs) (template : String) (ctx : Ctx)
    (metadata : Ctx) (content : String) (metadataR : Ctx)
    (hT : template ≠ "") (hP : L.fmParse template = (metadata, content))
    (hR : render_metadata L metadata ctx = .ok metadataR) :
    separate_content_and_metadata L template ctx =
      .ok (content, merge_dicts (alias_sender metadataR) ctx) := by
  unfold separate_content_and_metadata
  rw [if_neg hT, hP]
  simp [hR, Bind.bind, Except.bind]

/-- Claim C6: for every non-empty template document and base context, the
front-matter splitter returns an extended context equal to the (rendered)
front-matter metadata merged over the base context, metadata keys taking
precedence on conflicting keys; and whenever the metadata defines `from`
but not `sender`, the extended context resolves `sender` to the metadata
value of `from`. -/
theorem claim_C6_separate_merge (L : ExternalLibs) (template : String) (ctx : Ctx)
    (metadata : Ctx) (content : String) (metadataR : Ctx)
    (hT : template ≠ "") (hP : L.fmParse template = (metadata, content))
    (hR : render_metadata L metadata ctx = .ok metadataR) :
    ∃ ext, separate_content_and_metadata L template ctx = .ok (content, ext) ∧
      (∀ k v, ctx_get metadataR k = some v → ctx_get ext k = some v) ∧
      (∀ k, k ≠ "sender" → ctx_get metadataR k = none →
        ctx_get ext k = ctx_get ctx k) ∧
      (ctx_get metadataR "sender" = none → ctx_get metadataR "from" = none →
        ctx_get ext "sender" = ctx_get ctx "sender") ∧
      (∀ f, ctx_get metadataR "from" = some f → ctx_get metadataR "sender" = none →
        ctx_get ext "sender" = some f) := by
  refine ⟨merge_dicts (alias_sender metadataR) ctx,
    separate_eq L template ctx metadata content metadataR hT hP hR, ?_, ?_, ?_, ?_⟩
  · intro k v hk
    rw [merge_dicts_get]
    by_cases hks : k = "sender"
    · subst hks
      rw [ctx_get_alias_sender, hk]
      rfl
    · rw [ctx_get_alias_of_ne metadataR k hks, hk]
      rfl
  · intro k hks hk
    rw [merge_dicts_get, ctx_get_alias_of_ne metadataR k hks, hk]
    rfl
  · intro hs hf
    rw [merge_dicts_get, ctx_get_alias_sender, hs, hf]
    rfl
  · intro f hf hs
    rw [merge_dicts_get, ctx_get_alias_sender, hs, hf]
    rfl

/-- Witness for claim C6, at the document `"body"` whose front matter is
`from: a@b.com` and the base context `name: Ann`. -/
theorem claim_C6_separate_merge_witness :
    ∃ ext, separate_content_and_metadata fmLibs "body" [("name", "Ann")] =
        .ok ("body", ext) ∧
      (∀ k v, ctx_get [("from", "a@b.com")] k = some v → ctx_get ext k = some v) ∧
      (∀ k, k ≠ "sender" → ctx_get [("from", "a@b.com")] k = none →
        ctx_get ext k = ctx_get [("name", "Ann")] k) ∧
      (ctx_get [("from", "a@b.com")] "sender" = none →
        ctx_get [("from", "a@b.com")] "from" = none →
        ctx_get ext "sender" = ctx_get [("name", "Ann")] "sender") ∧
      (∀ f, ctx_get [("from", "a@b.com")] "from" = some f →
        ctx_get [("from", "a@b.com")] "sender" = none →
        ctx_get ext "sender" = some f) :=
  claim_C6_separate_merge fmLibs "body" [("name", "Ann")]
    [("from", "a@b.com")] "body" [("from", "a@b.com")]
    (by decide) rfl rfl

theorem generate_eq_of_stages (L : ExternalLibs)
    (pt mt ht : String) (ctx : Ctx) (ext1 : Ctx) (ht' : String)
    (ext2 : Ctx) (hc : Option String) (ext3 : Ctx) (pc : String)
    (h1 : markdown_stage L mt ht ctx = .ok (ext1, ht'))
    (h2 : html_stage L ht' ext1 = .ok (ext2, hc))
    (h3 : plaintext_stage L pt ctx ext2 hc = .ok (ext3, pc)) :
    generate L pt mt ht ctx =
      match py_truthy (py_or (ctx_get ext2 "sender") (ctx_get ext3 "sender")) with
      | none => .error .missingSender
      | some s =>
        match py_or (ctx_get ext2 "recipient") (ctx_get ext3 "recipient") with
        | none => .error (.attributeError "list object has no attribute subject")
        | some r =>
          .ok { fromAddr := s, recipients := [r],
                subjectLine :=
                  (if (ctx_get ext2 "subject").getD "" = "" then
                    (ctx_get ext3 "subject").getD ""
                  else (ctx_get ext2 "subject").getD ""),
                htmlPart := hc, plainPart := pc } := by
  unfold generate
  rw [h1]
  simp only [Bind.bind, Except.bind, h2, h3]

theorem generate_inv (L : ExternalLibs) (pt mt ht : String) (ctx : Ctx)
    (env : Envelope) (h : generate L pt mt ht ctx = .ok env) :
    ∃ ext1 ht' ext2 hc ext3 pc,
      markdown_stage L mt ht ctx = .ok (ext1, ht') ∧
      html_stage L ht' ext1 = .ok (ext2, hc) ∧
      plaintext_stage L pt ctx ext2 hc = .ok (ext3, pc) ∧
      env.htmlPart = hc ∧ env.plainPart = pc ∧
      some env.fromAddr =
        py_truthy (py_or (ctx_get ext2 "sender") (ctx_get ext3 "sender")) ∧
      (∃ r, py_or (ctx_get ext2 "recipient") (ctx_get ext3 "recipient") = some r ∧
        env.recipients = [r]) ∧
      env.subjectLine =
        (if (ctx_get ext2 "subject").getD "" = "" then
          (ctx_get ext3 "subject").getD ""
        else (ctx_get ext2 "subject").getD "") := by
  cases h1 : markdown_stage L mt ht ctx with
  | error e =>
    unfold generate at h
    rw [h1] at h
    simp [Bind.bind, Except.bind] at h
  | ok p1 =>
    obtain ⟨ext1, ht'⟩ := p1
    cases h2 : html_stage L ht' ext1 with
    | error e =>
      unfold generate at h
      rw [h1] at h
      simp [Bind.bind, Except.bind, h2] at h
    | ok p2 =>
      obtain ⟨ext2, hc⟩ := p2
      cases h3 : plaintext_stage L pt ctx ext2 hc with
      | error e =>
        unfold generate at h
        rw [h1] at h
        simp [Bind.bind, Except.bind, h2, h3] at h
      | ok p3 =>
        obtain ⟨ext3, pc⟩ := p3
        rw [generate_eq_of_stages L pt mt ht ctx ext1 ht' ext2 hc ext3 pc h1 h2 h3] at h
        cases hs : py_truthy (py_or (ctx_get ext2 "sender") (ctx_get ext3 "sender")) with
        | none => rw [hs] at h; exact absurd h (by simp)
        | some s =>
          rw [hs] at h
          cases hr : py_or (ctx_get ext2 "recipient") (ctx_get ext3 "recipient") with
          | none => rw [hr] at h; exact absurd h (by simp)
          | some r =>
            rw [hr] at h
            injection h with h
            subst h
            exact ⟨ext1, ht', ext2, hc, ext3, pc, rfl, h2, h3, rfl, rfl, hs.symm,
              ⟨r, hr, rfl⟩, rfl⟩

theorem py_truthy_some (x : Option String) (s : String) (h : py_truthy x = some s) :
    s ≠ "" := by
  cases x with
  | none => simp [py_truthy] at h
  | some t =>
    by_cases ht : t = ""
    · simp [py_truthy, ht] at h
    · simp only [py_truthy, if_neg ht, Option.some.injEq] at h
      exact h ▸ ht

theorem py_truthy_py_or_none (a b : Option String) :
    py_truthy (py_or a b) = none ↔ py_truthy a = none ∧ py_truthy b = none := by
  unfold py_or
  cases hta : py_truthy a with
  | some s =>
    have hs := py_truthy_some a s hta
    simp [py_truthy, hs]
  | none => simp

/-- Claim C1 (code bug): with a Markdown template present and no HTML
template supplied, `generate` is supposed to fall back to the default HTML
wrapper, but line 74 of `email.py` references the class attribute
`DEFAULTHTML_TEMPLATE` as a bare name (missing the `cls.` prefix), which
resolves to nothing and raises a NameError — the assembled HTML part is
never produced.  This theorem evaluates the embedded code at the failing
input. -/
theorem claim_C1_default_wrapper_nameerror :
    generate idLibs "" "**bold**\nline2" ""
        [("sender", "a@b.com"), ("recipient", "c@d.com")] =
      .error (.nameError "name DEFAULTHTML_TEMPLATE is not defined") := by
  rfl

/-- Counterexample for claim C3: with the context providing an
empty-string `recipient` (an empty CSV cell in the recipient column) and a
valid sender, `generate` succeeds and assembles a Message whose recipient
list is the single empty string — assembly does produce a Message with an
empty recipient. -/
theorem claim_C3_counterexample :
    generate idLibs "" "" "x" [("sender", "a@b.com"), ("recipient", "")] =
      .ok { fromAddr := "a@b.com", recipients := [""], subjectLine := "",
            htmlPart := some "x", plainPart := "x" } := by
  rfl

/-- Claim C3 as amended: every successful assembly resolves a non-empty
sender, and carries exactly one recipient string copied from the resolved
context — a record with no recipient key at all makes generation fail
(through the envelope getter chain), but an empty-string recipient is not
rejected and is carried into the Message. -/
theorem claim_C3_sender_nonempty (L : ExternalLibs)
    (pt mt ht : String) (ctx : Ctx) (env : Envelope)
    (h : generate L pt mt ht ctx = .ok env) :
    env.fromAddr ≠ "" ∧ ∃ r, env.recipients = [r] := by
  obtain ⟨e1, ht', e2, hc, e3, pc, _, _, _, _, _, hfrom, ⟨r, _, hrec⟩, _⟩ :=
    generate_inv L pt mt ht ctx env h
  exact ⟨py_truthy_some _ _ hfrom.symm, r, hrec⟩

/-- Witness for claim C3: the amended statement checked on a concrete
successful assembly. -/
theorem claim_C3_sender_nonempty_witness :
    (Envelope.mk "s@x" ["r@x"] "" none "x").fromAddr ≠ "" ∧
    ∃ r, (Envelope.mk "s@x" ["r@x"] "" none "x").recipients = [r] :=
  claim_C3_sender_nonempty idLibs "x" "" ""
    [("sender", "s@x"), ("recipient", "r@x")] _ rfl

/-- Claim C4: for every combination of templates and context whose three
stages succeed, the final sender, recipient and subject are resolved by
preferring the (truthy) values captured from the context right after the
HTML-stage metadata merge, falling back to the latest extended context
(the one left by the plaintext stage); and assembly fails with the
missing-sender error exactly when neither of those two layers holds a
truthy `sender`. -/
theorem claim_C4_resolution (L : ExternalLibs)
    (pt mt ht : String) (ctx : Ctx) (ext1 : Ctx) (ht' : String)
    (ext2 : Ctx) (hc : Option String) (ext3 : Ctx) (pc : String)
    (h1 : markdown_stage L mt ht ctx = .ok (ext1, ht'))
    (h2 : html_stage L ht' ext1 = .ok (ext2, hc))
    (h3 : plaintext_stage L pt ctx ext2 hc = .ok (ext3, pc)) :
    (generate L pt mt ht ctx = .error .missingSender ↔
      py_truthy (ctx_get ext2 "sender") = none ∧
      py_truthy (ctx_get ext3 "sender") = none)
    ∧ (∀ env, generate L pt mt ht ctx = .ok env →
        some env.fromAddr =
          py_truthy (py_or (ctx_get ext2 "sender") (ctx_get ext3 "sender")) ∧
        (∃ r, py_or (ctx_get ext2 "recipient") (ctx_get ext3 "recipient") = some r ∧
          env.recipients = [r]) ∧
        env.subjectLine =
          (if (ctx_get ext2 "subject").getD "" = "" then
            (ctx_get ext3 "subject").getD ""
          else (ctx_get ext2 "subject").getD "")) := by
  rw [generate_eq_of_stages L pt mt ht ctx ext1 ht' ext2 hc ext3 pc h1 h2 h3]
  constructor
  · cases hps : py_truthy (py_or (ctx_get ext2 "sender") (ctx_get ext3 "sender")) with
    | none =>
      simp only [hps]
      constructor
      · intro _
        exact (py_truthy_py_or_none _ _).mp hps
      · intro _
        trivial
    | some s =>
      simp only [hps]
      have hrhs : ¬(py_truthy (ctx_get ext2 "sender") = none ∧
          py_truthy (ctx_get ext3 "sender") = none) := by
        intro hcon
        rw [(py_truthy_py_or_none _ _).mpr hcon] at hps
        exact Option.noConfusion hps
      cases hr : py_or (ctx_get ext2 "recipient") (ctx_get ext3 "recipient") with
      | none => simp [hrhs]
      | some r => simp [hrhs]
  · intro env henv
    cases hps : py_truthy (py_or (ctx_get ext2 "sender") (ctx_get ext3 "sender")) with
    | none =>
      rw [hps] at henv
      exact absurd henv (by simp)
    | some s =>
      rw [hps] at henv
      cases hr : py_or (ctx_get ext2 "recipient") (ctx_get ext3 "recipient") with
      | none =>
        rw [hr] at henv
        exact absurd henv (by simp)
      | some r =>
        rw [hr] at henv
        injection henv with henv
        subst henv
        exact ⟨rfl, ⟨r, rfl, rfl⟩, rfl⟩

/-- Witness for claim C4: the resolution statement checked at a concrete
run in which only the plaintext template is supplied. -/
theorem claim_C4_resolution_witness :
    (generate idLibs "x" "" "" ctxW = .error .missingSender ↔
      py_truthy (ctx_get ctxW "sender") = none ∧
      py_truthy (ctx_get ctxW "sender") = none)
    ∧ (∀ env, generate idLibs "x" "" "" ctxW = .ok env →
        some env.fromAddr =
          py_truthy (py_or (ctx_get ctxW "sender") (ctx_get ctxW "sender")) ∧
        (∃ r, py_or (ctx_get ctxW "recipient") (ctx_get ctxW "recipient") = some r ∧
          env.recipients = [r]) ∧
        env.subjectLine =
          (if (ctx_get ctxW "subject").getD "" = "" then
            (ctx_get ctxW "subject").getD ""
          else (ctx_get ctxW "subject").getD "")) :=
  claim_C4_resolution idLibs "x" "" "" ctxW ctxW "" ctxW none ctxW "x" rfl rfl rfl

theorem plaintext_stage_indep (L : ExternalLibs) (pt : String) (ctx : Ctx)
    (hpt : pt ≠ "") (e e' : Ctx) (hc hc' : Option String) :
    plaintext_stage L pt ctx e hc = plaintext_stage L pt ctx e' hc' := by
  unfold plaintext_stage
  rw [if_neg hpt, if_neg hpt]

/-- Claim C5: an explicitly supplied plaintext template is split and
rendered against the original, non-extended context — its rendered
plaintext part is the same whether or not Markdown/HTML templates (and
their metadata) are present — whereas the HTML template front matter is
split against the context extended by the Markdown stage. -/
theorem claim_C5_plaintext_independent :
    (∀ (L : ExternalLibs) (pt mt ht : String) (ctx : Ctx) (env env₀ : Envelope),
      pt ≠ "" →
      generate L pt mt ht ctx = .ok env →
      generate L pt "" "" ctx = .ok env₀ →
      env.plainPart = env₀.plainPart)
    ∧ (∀ (L : ExternalLibs) (pt mt ht : String) (ctx ext1 : Ctx) (ht' : String)
        (hc : String) (ext2 : Ctx) (hrend : String) (env : Envelope),
      markdown_stage L mt ht ctx = .ok (ext1, ht') →
      ht' ≠ "" →
      separate_content_and_metadata L ht' ext1 = .ok (hc, ext2) →
      L.jinjaRender hc ext2 = .ok hrend →
      generate L pt mt ht ctx = .ok env →
      env.htmlPart = some hrend) := by
  constructor
  · intro L pt mt ht ctx env env₀ hpt h h0
    obtain ⟨e1, htA, e2, hcc, e3, pc, g1, g2, g3, _, hp, _, _, _⟩ :=
      generate_inv L pt mt ht ctx env h
    obtain ⟨e1₀, htB, e2₀, hc₀, e3₀, pc₀, g1₀, g2₀, g3₀, _, hp₀, _, _, _⟩ :=
      generate_inv L pt "" "" ctx env₀ h0
    have heq := plaintext_stage_indep L pt ctx hpt e2 e2₀ hcc hc₀
    rw [g3, g3₀] at heq
    injection heq with heq
    injection heq with heq1 heq2
    rw [hp, hp₀, heq2]
  · intro L pt mt ht ctx ext1 ht' hc ext2 hrend env h1 hht hsep hrendr hok
    have h2 : html_stage L ht' ext1 = .ok (ext2, some hrend) := by
      unfold html_stage
      rw [if_neg hht, hsep]
      simp [Bind.bind, Except.bind, hrendr]
    obtain ⟨e1', ht'', e2', hc', e3', pc', g1, g2, g3, hhtml, _, _, _, _⟩ :=
      generate_inv L pt mt ht ctx env hok
    rw [h1] at g1
    injection g1 with g1
    injection g1 with ga gb
    rw [← ga, ← gb] at g2
    rw [h2] at g2
    injection g2 with g2
    injection g2 with gc gd
    rw [hhtml, ← gd]

/-- Witness for claim C5: both halves checked at a concrete run with a
plaintext template `"x"` and an html template `"y"`. -/
theorem claim_C5_plaintext_independent_witness :
    ((Envelope.mk "s@x" ["r@x"] "" (some "y") "x").plainPart =
      (Envelope.mk "s@x" ["r@x"] "" none "x").plainPart) ∧
    ((Envelope.mk "s@x" ["r@x"] "" (some "y") "x").htmlPart = some "y") :=
  ⟨claim_C5_plaintext_independent.1 idLibs "x" "" "y" ctxW _ _ (by decide) rfl rfl,
   claim_C5_plaintext_independent.2 idLibs "x" "" "y" ctxW ctxW "y" "y" ctxW "y" _
     rfl (by decide) rfl rfl rfl⟩

theorem render_metadata_absent (L : ExternalLibs) (md c : Ctx) (k : String)
    (md' : Ctx) (h : ctx_get md k = none)
    (hr : render_metadata L md c = .ok md') : ctx_get md' k = none := by
  induction md generalizing md' with
  | nil =>
    unfold render_metadata at hr
    injection hr with hr
    rw [← hr]
    rfl
  | cons kv rest ih =>
    obtain ⟨k1, v1⟩ := kv
    have hk : ¬k1 = k := by
      intro e
      simp [ctx_get, e] at h
    have h' : ctx_get rest k = none := by
      simpa [ctx_get, hk] using h
    unfold render_metadata at hr
    simp only [Bind.bind, Except.bind] at hr
    cases hj : L.jinjaRender v1 c with
    | error e =>
      rw [hj] at hr
      simp at hr
    | ok v' =>
      rw [hj] at hr
      simp only at hr
      cases hrm : render_metadata L rest c with
      | error e =>
        rw [hrm] at hr
        simp at hr
      | ok rest' =>
        rw [hrm] at hr
        simp only [Except.ok.injEq] at hr
        rw [← hr]
        simpa [ctx_get, hk] using ih rest' h' hrm

theorem separate_absent (L : ExternalLibs) (t : String) (c : Ctx) (k : String)
    (b : String) (ext : Ctx) (hk : k ≠ "sender")
    (hm : ctx_get (L.fmParse t).1 k = none) (hc : ctx_get c k = none)
    (hsep : separate_content_and_metadata L t c = .ok (b, ext)) :
    ctx_get ext k = none := by
  unfold separate_content_and_metadata at hsep
  by_cases ht : t = ""
  · rw [if_pos ht] at hsep
    injection hsep with hsep
    injection hsep with hb hext
    rw [← hext]
    exact hc
  · rw [if_neg ht] at hsep
    cases hfm : L.fmParse t with
    | mk md content =>
      rw [hfm] at hsep hm
      simp only at hm
      simp only [Bind.bind, Except.bind] at hsep
      cases hrm : render_metadata L md c with
      | error e =>
        rw [hrm] at hsep
        simp at hsep
      | ok mdR =>
        rw [hrm] at hsep
        simp only [Except.ok.injEq] at hsep
        injection hsep with hb hext
        rw [← hext, merge_dicts_get, ctx_get_alias_of_ne _ _ hk,
          render_metadata_absent L md c k mdR hm hrm, hc]
        rfl

theorem markdown_stage_absent (L : ExternalLibs) (mt ht : String) (c : Ctx)
    (k : String) (ext1 : Ctx) (ht' : String)
    (hk1 : k ≠ "sender") (hk2 : k ≠ "content")
    (hm : ∀ t, ctx_get (L.fmParse t).1 k = none) (hc : ctx_get c k = none)
    (h : markdown_stage L mt ht c = .ok (ext1, ht')) : ctx_get ext1 k = none := by
  unfold markdown_stage at h
  by_cases hmt : mt = ""
  · rw [if_pos hmt] at h
    injection h with h
    injection h with ha hb
    rw [← ha]
    exact hc
  · rw [if_neg hmt] at h
    simp only [Bind.bind, Except.bind] at h
    cases hsep : separate_content_and_metadata L mt c with
    | error e =>
      rw [hsep] at h
      simp at h
    | ok p =>
      obtain ⟨mc, e⟩ := p
      rw [hsep] at h
      simp only at h
      cases hj : L.jinjaRender mc e with
      | error er =>
        rw [hj] at h
        simp at h
      | ok mc' =>
        rw [hj] at h
        simp only at h
        by_cases hht : ht = ""
        · rw [if_pos hht] at h
          simp at h
        · rw [if_neg hht] at h
          injection h with h
          injection h with ha hb
          rw [← ha, ctx_get_set_ne e "content" _ k (fun hh => hk2 hh.symm)]
          exact separate_absent L mt c k mc e hk1 (hm mt) hc hsep

theorem html_stage_absent (L : ExternalLibs) (ht : String) (c : Ctx)
    (k : String) (ext2 : Ctx) (hcont : Option String)
    (hk1 : k ≠ "sender")
    (hm : ∀ t, ctx_get (L.fmParse t).1 k = none) (hc : ctx_get c k = none)
    (h : html_stage L ht c = .ok (ext2, hcont)) : ctx_get ext2 k = none := by
  unfold html_stage at h
  by_cases hht : ht = ""
  · rw [if_pos hht] at h
    injection h with h
    injection h with ha hb
    rw [← ha]
    exact hc
  · rw [if_neg hht] at h
    simp only [Bind.bind, Except.bind] at h
    cases hsep : separate_content_and_metadata L ht c with
    | error e =>
      rw [hsep] at h
      simp at h
    | ok p =>
      obtain ⟨mc, e⟩ := p
      rw [hsep] at h
      simp only at h
      cases hj : L.jinjaRender mc e with
      | error er =>
        rw [hj] at h
        simp at h
      | ok mc' =>
        rw [hj] at h
        simp only at h
        injection h with h
        injection h with ha hb
        rw [← ha]
        exact separate_absent L ht c k mc e hk1 (hm ht) hc hsep

theorem plaintext_stage_absent (L : ExternalLibs) (pt : String) (c ext2 : Ctx)
    (hcont : Option String) (k : String) (ext3 : Ctx) (pc : String)
    (hk1 : k ≠ "sender")
    (hm : ∀ t, ctx_get (L.fmParse t).1 k = none)
    (hcc : ctx_get c k = none) (hce : ctx_get ext2 k = none)
    (h : plaintext_stage L pt c ext2 hcont = .ok (ext3, pc)) :
    ctx_get ext3 k = none := by
  unfold plaintext_stage at h
  by_cases hpt : pt = ""
  · rw [if_pos hpt] at h
    cases hcont with
    | none => simp at h
    | some hcv =>
      injection h with h
      injection h with ha hb
      rw [← ha]
      exact hce
  · rw [if_neg hpt] at h
    simp only [Bind.bind, Except.bind] at h
    cases hsep : separate_content_and_metadata L pt c with
    | error e =>
      rw [hsep] at h
      simp at h
    | ok p =>
      obtain ⟨mc, e⟩ := p
      rw [hsep] at h
      simp only at h
      cases hj : L.jinjaRender mc e with
      | error er =>
        rw [hj] at h
        simp at h
      | ok mc' =>
        rw [hj] at h
        simp only at h
        injection h with h
        injection h with ha hb
        rw [← ha]
        exact separate_absent L pt c k mc e hk1 (hm pt) hcc hsep

/-- Claim C10: when no `subject` key occurs in the CSV context nor in any
front-matter metadata, generation does not fail on the missing subject —
whenever assembly succeeds (a sender resolves and every stage goes
through), the assembled message subject is the empty string. -/
theorem claim_C10_missing_subject_empty (L : ExternalLibs)
    (pt mt ht : String) (ctx : Ctx) (env : Envelope)
    (hm : ∀ t, ctx_get (L.fmParse t).1 "subject" = none)
    (hc : ctx_get ctx "subject" = none)
    (hok : generate L pt mt ht ctx = .ok env) : env.subjectLine = "" := by
  obtain ⟨e1, ht', e2, hcc, e3, pc, g1, g2, g3, _, _, _, _, hsub⟩ :=
    generate_inv L pt mt ht ctx env hok
  have h1 : ctx_get e1 "subject" = none :=
    markdown_stage_absent L mt ht ctx "subject" e1 ht' (by decide) (by decide) hm hc g1
  have h2 : ctx_get e2 "subject" = none :=
    html_stage_absent L ht' e1 "subject" e2 hcc (by decide) hm h1 g2
  have h3 : ctx_get e3 "subject" = none :=
    plaintext_stage_absent L pt ctx e2 hcc "subject" e3 pc (by decide) hm hc h2 g3
  rw [hsub, h2, h3]
  simp

/-- Witness for claim C10: a concrete successful assembly with no subject
key anywhere yields the empty subject. -/
theorem claim_C10_missing_subject_empty_witness :
    (Envelope.mk "s@x" ["r@x"] "" none "x").subjectLine = "" :=
  claim_C10_missing_subject_empty idLibs "x" "" "" ctxW _
    (fun _ => rfl) (by decide) rfl

theorem build_row_dict_ok (row : List String) (header : List String) (acc : Ctx)
    (h : row.length ≤ header.length) :
    ∃ d, build_row_dict acc header row = .ok d := by
  induction row generalizing header acc with
  | nil => cases header <;> exact ⟨acc, rfl⟩
  | cons v vs ih =>
    cases header with
    | nil => simp at h
    | cons hh hs =>
      have h' : vs.length ≤ hs.length := by simpa using h
      exact ih hs (ctx_set acc hh v) h'

theorem build_row_dict_absent (row : List String) (header : List String) (acc : Ctx)
    (k : String) (d : Ctx)
    (hacc : ctx_get acc k = none)
    (hnot : k ∉ header.take row.length)
    (hd : build_row_dict acc header row = .ok d) : ctx_get d k = none := by
  induction row generalizing header acc with
  | nil =>
    cases header <;>
      (unfold build_row_dict at hd
       injection hd with hd
       rw [← hd]
       exact hacc)
  | cons v vs ih =>
    cases header with
    | nil =>
      unfold build_row_dict at hd
      simp at hd
    | cons hh hs =>
      simp only [List.length_cons, List.take_succ_cons, List.mem_cons] at hnot
      push_neg at hnot
      obtain ⟨hne, hnot'⟩ := hnot
      have hacc' : ctx_get (ctx_set acc hh v) k = none := by
        rw [ctx_get_set_ne acc hh v k (fun hh' => hne hh'.symm)]
        exact hacc
      exact ih hs (ctx_set acc hh v) hacc' hnot' hd

theorem apply_defaults_absent (sd sb : Option String) (d : Ctx) (k : String)
    (h1 : k ≠ "from") (h2 : k ≠ "sender") (h3 : k ≠ "subject") :
    ctx_get (apply_subject_default sb (apply_sender_default sd d)) k = ctx_get d k := by
  have hs : ctx_get (apply_sender_default sd d) k = ctx_get d k := by
    cases sd with
    | none => rfl
    | some s =>
      unfold apply_sender_default
      rw [ctx_get_set_ne _ "sender" _ k (fun hh => h2 hh.symm),
        ctx_get_set_ne _ "from" _ k (fun hh => h1 hh.symm)]
  cases sb with
  | none => exact hs
  | some s =>
    unfold apply_subject_default
    rw [ctx_get_set_ne _ "subject" _ k (fun hh => h3 hh.symm)]
    exact hs

theorem row_to_context_ok (header : List String) (sd sb : Option String)
    (rc : Nat) (row : List String)
    (h1 : rc < row.length) (h2 : row.length ≤ header.length) :
    ∃ ctx, row_to_context header sd sb rc row = .ok ctx ∧
      ctx_get ctx "recipient" = row[rc]? ∧
      ctx_get ctx "to" = row[rc]? ∧
      ∀ name, name ∉ header.take row.length →
        name ∉ (["from", "sender", "subject", "recipient", "to"] : List String) →
        ctx_get ctx name = none := by
  obtain ⟨d, hd⟩ := build_row_dict_ok row header [] h2
  have hrv : row[rc]? = some row[rc] := List.getElem?_eq_getElem h1
  refine ⟨ctx_set (ctx_set (apply_subject_default sb (apply_sender_default sd d))
      "recipient" row[rc]) "to" row[rc], ?_, ?_, ?_, ?_⟩
  · unfold row_to_context
    rw [hd]
    simp only [Bind.bind, Except.bind]
    rw [hrv]
  · rw [ctx_get_set_ne _ "to" _ "recipient" (by decide), ctx_get_set_self, hrv]
  · rw [ctx_get_set_self, hrv]
  · intro name hn hns
    simp only [List.mem_cons, List.not_mem_nil, or_false, not_or] at hns
    obtain ⟨n1, n2, n3, n4, n5⟩ := hns
    rw [ctx_get_set_ne _ "to" _ name (fun hh => n5 hh.symm),
      ctx_get_set_ne _ "recipient" _ name (fun hh => n4 hh.symm),
      apply_defaults_absent sd sb d name n1 n2 n3]
    exact build_row_dict_absent row header [] name d rfl hn hd

theorem each_row_props (header : List String) (sd sb : Option String)
    (rc : Nat) (data_rows : List (List String))
    (hrows : ∀ r ∈ data_rows, rc < r.length ∧ r.length ≤ header.length) :
    ∃ ctxs, each_row (row_to_context header sd sb rc) data_rows = .ok ctxs ∧
      ctxs.length = data_rows.length ∧
      (∀ p ∈ ctxs.zip data_rows,
        ctx_get p.1 "recipient" = p.2[rc]? ∧ ctx_get p.1 "to" = p.2[rc]?) ∧
      (∀ p ∈ ctxs.zip data_rows, ∀ name,
        name ∉ header.take p.2.length →
        name ∉ (["from", "sender", "subject", "recipient", "to"] : List String) →
        ctx_get p.1 name = none) := by
  induction data_rows with
  | nil => exact ⟨[], rfl, rfl, by simp, by simp⟩
  | cons r rs ih =>
    obtain ⟨hr1, hr2⟩ := hrows r (List.mem_cons_self r rs)
    obtain ⟨ctx, hctx, hrec, hto, habs⟩ := row_to_context_ok header sd sb rc r hr1 hr2
    obtain ⟨ctxs, hctxs, hlen, hzip, habs2⟩ :=
      ih (fun r' hr' => hrows r' (List.mem_cons_of_mem r hr'))
    refine ⟨ctx :: ctxs, ?_, by simp [hlen], ?_, ?_⟩
    · unfold each_row
      rw [hctx]
      simp only [Bind.bind, Except.bind]
      rw [hctxs]
    · intro p hp
      rw [List.zip_cons_cons, List.mem_cons] at hp
      cases hp with
      | inl he => rw [he]; exact ⟨hrec, hto⟩
      | inr hm => exact hzip p hm
    · intro p hp
      rw [List.zip_cons_cons, List.mem_cons] at hp
      cases hp with
      | inl he =>
        rw [he]
        exact habs
      | inr hm => exact habs2 p hm

/-- Counterexample for claim C2, exhibiting both ways a data row can make
the loader raise instead of yielding a record.  First conjunct: a row with
fewer cells than the header whose missing cell is the recipient column —
the header `name;email` detects the recipient column at index 1, the row
`bob` has a single cell, and `csv_row[1]` raises IndexError at
`bulk_mailer.py:251`.  Second conjunct: a row with more cells than the
header — `header[i]` inside the dict comprehension at `bulk_mailer.py:245`
raises IndexError at the third cell. -/
theorem claim_C2_counterexample :
    create_context_source none none 0 [["name", "email"], ["bob"]] =
      .error .indexError ∧
    create_context_source none none 0 [["name", "email"], ["Ann", "a@x", "extra"]] =
      .error .indexError := by
  exact ⟨rfl, rfl⟩

/-- Claim C2 as amended: for every CSV input with a valid header and a
recognized email column, the loader yields exactly one context record per
data row for the rows that cover the detected recipient column and do not
exceed the header length, each record resolving `recipient` and `to` to
that row cell in the recipient column; such rows with fewer cells than the
header produce records whose remaining keys are silently absent, without
error.  Rows outside that range raise IndexError: a row with no cell at
the recipient column index fails at `bulk_mailer.py:251`
(`csv_row[recipient_email_column]`), and a row with more cells than the
header fails at `bulk_mailer.py:245` (`header[i]`) — see the
counterexample for both. -/
theorem claim_C2_loader_records (sd sb : Option String)
    (header_row : List String) (data_rows : List (List String))
    (header : List String) (rc : Nat)
    (hh : build_header header_row = .ok header)
    (hc : find_recipient_column header = .ok rc)
    (hrows : ∀ r ∈ data_rows, rc < r.length ∧ r.length ≤ header.length) :
    ∃ ctxs, create_context_source sd sb 0 (header_row :: data_rows) = .ok ctxs ∧
      ctxs.length = data_rows.length ∧
      (∀ p ∈ ctxs.zip data_rows,
        ctx_get p.1 "recipient" = p.2[rc]? ∧ ctx_get p.1 "to" = p.2[rc]?) ∧
      (∀ p ∈ ctxs.zip data_rows, ∀ name,
        name ∉ header.take p.2.length →
        name ∉ (["from", "sender", "subject", "recipient", "to"] : List String) →
        ctx_get p.1 name = none) := by
  obtain ⟨ctxs, hctxs, hlen, hzip, habs⟩ := each_row_props header sd sb rc data_rows hrows
  refine ⟨ctxs, ?_, hlen, hzip, habs⟩
  unfold create_context_source
  rw [List.drop_zero]
  simp only [hh, hc, Bind.bind, Except.bind]
  exact hctxs

/-- Witness for claim C2: the amended loader statement checked on the CSV
`name;email` / `Ann;a@x`. -/
theorem claim_C2_loader_records_witness :
    ∃ ctxs, create_context_source none none 0 [["name", "email"], ["Ann", "a@x"]] =
        .ok ctxs ∧
      ctxs.length = [["Ann", "a@x"]].length ∧
      (∀ p ∈ ctxs.zip [["Ann", "a@x"]],
        ctx_get p.1 "recipient" = p.2[1]? ∧ ctx_get p.1 "to" = p.2[1]?) ∧
      (∀ p ∈ ctxs.zip [["Ann", "a@x"]], ∀ name,
        name ∉ (["name", "email"] : List String).take p.2.length →
        name ∉ (["from", "sender", "subject", "recipient", "to"] : List String) →
        ctx_get p.1 name = none) :=
  claim_C2_loader_records none none ["name", "email"] [["Ann", "a@x"]]
    ["name", "email"] 1 rfl rfl (by decide)

theorem send_mail_dry (cfg : MailerConfig) (e : Envelope) (hd : cfg.dryRun = true) :
    send_mail cfg e = [] := by
  simp [send_mail, hd]

theorem send_from_test (cfg : MailerConfig) (gen : Ctx → Except PyErr Envelope)
    (hne : cfg.testEmailSet ≠ []) :
    ∀ (ctxs : List Ctx) (i : Nat) (sents : List SentMail),
      send_from cfg gen i ctxs = .ok sents →
      sents.length = min (cfg.testCount - i) ctxs.length ∧
      ∀ s ∈ sents, (i ≤ s.index ∧ s.index < cfg.testCount) ∧
        s.envelope.recipients = cfg.testEmailSet := by
  intro ctxs
  induction ctxs with
  | nil =>
    intro i sents h
    unfold send_from at h
    injection h with h
    rw [← h]
    exact ⟨by simp, by simp⟩
  | cons c rest ih =>
    intro i sents h
    unfold send_from at h
    simp only [Bind.bind, Except.bind] at h
    cases hg : gen c with
    | error e =>
      rw [hg] at h
      simp at h
    | ok envl =>
      rw [hg] at h
      simp only at h
      rw [if_pos hne] at h
      by_cases hi : i < cfg.testCount
      · rw [if_pos hi] at h
        cases htl : send_from cfg gen (i + 1) rest with
        | error e =>
          rw [htl] at h
          simp at h
        | ok tail =>
          rw [htl] at h
          simp only [Except.ok.injEq] at h
          obtain ⟨hlen, hall⟩ := ih (i + 1) tail htl
          rw [← h]
          constructor
          · simp only [List.length_cons, hlen]
            omega
          · intro s hs
            rw [List.mem_cons] at hs
            cases hs with
            | inl he =>
              rw [he]
              exact ⟨⟨Nat.le_refl i, hi⟩, rfl⟩
            | inr hm =>
              obtain ⟨⟨hi1, hi2⟩, hr⟩ := hall s hm
              exact ⟨⟨by omega, hi2⟩, hr⟩
      · rw [if_neg hi] at h
        injection h with h
        rw [← h]
        constructor
        · simp only [List.length_nil]
          omega
        · intro s hs
          simp at hs

/-- Claim C7: when a test-recipient set is configured with test count N,
the send loop overrides the resolved recipients with the test addresses
for exactly the first N context records and dispatches no record at index
N or beyond (the trace holds min(N, record count) entries, every entry has
index below N, and with N = 0 nothing at all is sent). -/
theorem claim_C7_test_mode (cfg : MailerConfig) (gen : Ctx → Except PyErr Envelope)
    (ctxs : List Ctx) (sents : List SentMail)
    (hne : cfg.testEmailSet ≠ [])
    (h : send cfg gen ctxs = .ok sents) :
    sents.length = min cfg.testCount ctxs.length ∧
    ∀ s ∈ sents, s.index < cfg.testCount ∧
      s.envelope.recipients = cfg.testEmailSet := by
  obtain ⟨hlen, hall⟩ := send_from_test cfg gen hne ctxs 0 sents h
  refine ⟨by simpa using hlen, fun s hs => ⟨(hall s hs).1.2, (hall s hs).2⟩⟩

/-- Witness for claim C7: three records, test count 1 — exactly one record
is dispatched, with the test recipients. -/
theorem claim_C7_test_mode_witness :
    ([⟨0, Envelope.mk "s@x" ["t@x"] "" none "x",
        [TransportAction.configureSmtp, TransportAction.networkSend]⟩] :
      List SentMail).length = min 1 [ctxW, ctxW, ctxW].length ∧
    ∀ s ∈ ([⟨0, Envelope.mk "s@x" ["t@x"] "" none "x",
        [TransportAction.configureSmtp, TransportAction.networkSend]⟩] :
      List SentMail), s.index < 1 ∧ s.envelope.recipients = ["t@x"] :=
  claim_C7_test_mode ⟨false, false, false, ["t@x"], 1⟩
    (fun _ => .ok (Envelope.mk "s@x" ["r@x"] "" none "x"))
    [ctxW, ctxW, ctxW] _ (by decide) rfl

theorem send_from_dry (cfg : MailerConfig) (gen : Ctx → Except PyErr Envelope)
    (hd : cfg.dryRun = true) (ht : cfg.testEmailSet = []) :
    ∀ (ctxs : List Ctx) (i : Nat) (sents : List SentMail),
      send_from cfg gen i ctxs = .ok sents →
      sents.length = ctxs.length ∧
      (∀ s ∈ sents, s.transport = []) ∧
      (∀ p ∈ ctxs.zip sents, gen p.1 = .ok p.2.envelope) := by
  intro ctxs
  induction ctxs with
  | nil =>
    intro i sents h
    unfold send_from at h
    injection h with h
    rw [← h]
    exact ⟨rfl, by simp, by simp⟩
  | cons c rest ih =>
    intro i sents h
    unfold send_from at h
    simp only [Bind.bind, Except.bind] at h
    cases hg : gen c with
    | error e =>
      rw [hg] at h
      simp at h
    | ok envl =>
      rw [hg] at h
      simp only at h
      rw [if_neg (by simp [ht])] at h
      cases htl : send_from cfg gen (i + 1) rest with
      | error e =>
        rw [htl] at h
        simp at h
      | ok tail =>
        rw [htl] at h
        simp only [Except.ok.injEq] at h
        obtain ⟨hlen, htr, hzip⟩ := ih (i + 1) tail htl
        rw [← h]
        refine ⟨by simp [hlen], ?_, ?_⟩
        · intro s hs
          rw [List.mem_cons] at hs
          cases hs with
          | inl he => rw [he]; exact send_mail_dry cfg envl hd
          | inr hm => exact htr s hm
        · intro p hp
          rw [List.zip_cons_cons, List.mem_cons] at hp
          cases hp with
          | inl he => rw [he]; exact hg
          | inr hm => exact hzip p hm


theorem send_from_transport_dry (cfg : MailerConfig)
    (gen : Ctx → Except PyErr Envelope) (hd : cfg.dryRun = true) :
    ∀ (ctxs : List Ctx) (i : Nat) (sents : List SentMail),
      send_from cfg gen i ctxs = .ok sents → ∀ s ∈ sents, s.transport = [] := by
  intro ctxs
  induction ctxs with
  | nil =>
    intro i sents h
    unfold send_from at h
    injection h with h
    rw [← h]
    simp
  | cons c rest ih =>
    intro i sents h
    unfold send_from at h
    simp only [Bind.bind, Except.bind] at h
    cases hg : gen c with
    | error e =>
      rw [hg] at h
      simp at h
    | ok envl =>
      rw [hg] at h
      simp only at h
      by_cases hset : cfg.testEmailSet ≠ []
      · rw [if_pos hset] at h
        by_cases hi : i < cfg.testCount
        · rw [if_pos hi] at h
          cases htl : send_from cfg gen (i + 1) rest with
          | error e =>
            rw [htl] at h
            simp at h
          | ok tail =>
            rw [htl] at h
            simp only [Except.ok.injEq] at h
            rw [← h]
            intro s hs
            rw [List.mem_cons] at hs
            cases hs with
            | inl he => rw [he]; simp [SentMail.transport, send_mail, hd]
            | inr hm => exact ih (i + 1) tail htl s hm
        · rw [if_neg hi] at h
          injection h with h
          rw [← h]
          simp
      · rw [if_neg hset] at h
        cases htl : send_from cfg gen (i + 1) rest with
        | error e =>
          rw [htl] at h
          simp at h
        | ok tail =>
          rw [htl] at h
          simp only [Except.ok.injEq] at h
          rw [← h]
          intro s hs
          rw [List.mem_cons] at hs
          cases hs with
          | inl he => rw [he]; simp [SentMail.transport, send_mail, hd]
          | inr hm => exact ih (i + 1) tail htl s hm

/-- Counterexample for claim C8: dry-run mode does NOT execute the full
rendering pipeline for every context record when a test-recipient set is
also configured.  Here dry-run is on, a test set is configured with test
count 0, and the generator would fail on the second record (an undefined
template variable); yet the run succeeds with an empty trace: the
`else: return` at `bulk_mailer.py:197` stops the loop before the second
record is ever rendered, so its rendering error goes undetected. -/
theorem claim_C8_counterexample :
    send ⟨true, false, false, ["t@x"], 0⟩
      (fun c => if c = ctxW then .ok (Envelope.mk "s@x" ["r@x"] "" none "x")
        else .error (.undefinedVariable "name"))
      [ctxW, [("bad", "1")]] = .ok [] := by
  rfl

/-- Claim C8 as amended: in dry-run mode with no test-recipient set
configured (the default), every context record is run through the full
rendering pipeline — the generator is invoked on each record, producing
the recorded envelope — and the transport collaborator (SMTP
configuration, GPG signing/encryption, network send) is invoked zero
times; and in dry-run mode the transport collaborator is never invoked
regardless of whether a test-recipient set is configured, although a
configured test set still cuts the loop after its test count, so records
beyond it are not rendered (see the counterexample). -/
theorem claim_C8_dry_run :
    (∀ (cfg : MailerConfig) (gen : Ctx → Except PyErr Envelope)
        (ctxs : List Ctx) (sents : List SentMail),
      cfg.dryRun = true → cfg.testEmailSet = [] →
      send cfg gen ctxs = .ok sents →
      sents.length = ctxs.length ∧
      (∀ s ∈ sents, s.transport = []) ∧
      (∀ p ∈ ctxs.zip sents, gen p.1 = .ok p.2.envelope))
    ∧ (∀ (cfg : MailerConfig) (gen : Ctx → Except PyErr Envelope)
        (ctxs : List Ctx) (sents : List SentMail),
      cfg.dryRun = true →
      send cfg gen ctxs = .ok sents →
      ∀ s ∈ sents, s.transport = []) := by
  constructor
  · intro cfg gen ctxs sents hd ht h
    exact send_from_dry cfg gen hd ht ctxs 0 sents h
  · intro cfg gen ctxs sents hd h
    exact send_from_transport_dry cfg gen hd ctxs 0 sents h

/-- Witness for claim C8: the first half checked on a dry run over two
records with no test set (both rendered, no transport); the second half
checked on a dry run with a test set configured (still no transport). -/
theorem claim_C8_dry_run_witness :
    (([⟨0, Envelope.mk "s@x" ["r@x"] "" none "x", []⟩,
      ⟨1, Envelope.mk "s@x" ["r@x"] "" none "x", []⟩] : List SentMail).length =
      [ctxW, ctxW].length ∧
    (∀ s ∈ ([⟨0, Envelope.mk "s@x" ["r@x"] "" none "x", []⟩,
      ⟨1, Envelope.mk "s@x" ["r@x"] "" none "x", []⟩] : List SentMail),
      s.transport = []) ∧
    (∀ p ∈ [ctxW, ctxW].zip ([⟨0, Envelope.mk "s@x" ["r@x"] "" none "x", []⟩,
      ⟨1, Envelope.mk "s@x" ["r@x"] "" none "x", []⟩] : List SentMail),
      (fun _ => (.ok (Envelope.mk "s@x" ["r@x"] "" none "x") :
        Except PyErr Envelope)) p.1 = .ok p.2.envelope)) ∧
    (∀ s ∈ ([⟨0, Envelope.mk "s@x" ["t@x"] "" none "x", []⟩] : List SentMail),
      s.transport = []) :=
  ⟨claim_C8_dry_run.1 ⟨true, false, false, [], 0⟩
    (fun _ => .ok (Envelope.mk "s@x" ["r@x"] "" none "x"))
    [ctxW, ctxW] _ rfl rfl rfl,
   claim_C8_dry_run.2 ⟨true, false, false, ["t@x"], 1⟩
    (fun _ => .ok (Envelope.mk "s@x" ["r@x"] "" none "x"))
    [ctxW] _ rfl rfl⟩
